import Mathlib

/-!
Shallow embedding of the dilution/concentration calculation engine of the
Lab_toolkits repository: the unit-conversion tables, the Dilution Master
single-step calculation, the Serial Dilution Planner arithmetic, the
cascading IC50 planner, and the molarity formatter.  Real arithmetic is
modelled over `ℚ`; Python dictionaries as association lists; a raised
Python `KeyError` and the `st.error` early returns as `Except`.
-/

namespace LabToolkit

/-- From `src/src/common.py`: `MOLARITY_CONVERSIONS` (keys are the exact,
mojibake-encoded, strings of that file). -/
def MOLARITY_CONVERSIONS : List (String × ℚ) :=
  [("M", 1), ("mM", 1/1000), ("ÂµM", 1/1000000), ("nM", 1/10^9), ("pM", 1/10^12)]

/-- From `src/src/common.py`: `MASS_VOL_CONVERSIONS`. -/
def MASS_VOL_CONVERSIONS : List (String × ℚ) :=
  [("g/L", 1), ("mg/L", 1/1000), ("Âµg/L", 1/1000000),
   ("g/mL", 1000), ("mg/mL", 1), ("Âµg/mL", 1/1000),
   ("ng/mL", 1/1000000), ("Âµg/ÂµL", 1), ("ng/ÂµL", 1/1000)]

/-- From `src/app.py`: `MOLARITY_CONVERSIONS`. -/
def app_MOLARITY_CONVERSIONS : List (String × ℚ) :=
  [("M", 1), ("mM", 1/1000), ("µM", 1/1000000), ("nM", 1/10^9), ("pM", 1/10^12)]

/-- From `src/app.py`: `MASS_VOL_CONVERSIONS`. -/
def app_MASS_VOL_CONVERSIONS : List (String × ℚ) :=
  [("g/L", 1), ("mg/L", 1/1000), ("µg/L", 1/1000000),
   ("g/mL", 1000), ("mg/mL", 1), ("µg/mL", 1/1000),
   ("ng/mL", 1/1000000), ("µg/µL", 1), ("ng/µL", 1/1000)]

/-- Python dictionary membership test and item access, `unit in table` /
`table[unit]`, as one partial lookup. -/
def lookupTable (table : List (String × ℚ)) (unit : String) : Option ℚ :=
  (table.find? (fun p => p.1 == unit)).map (fun p => p.2)

/-- Error taxonomy of the calculators; a raised Python `KeyError` on a unit
lookup is modelled as `unknownUnit`, and each `st.error`/`st.warning`
early-return branch as the corresponding error value. -/
inductive DilutionError where
  | unknownUnit
  | missingMolecularWeight
  | invalidConcentrationOrder
  | invalidParameter
deriving DecidableEq

/-- From `src/app.py` `dilution_master_tab` (lines 316-324): conversion of the
stock concentration to a base molar value.  A unit in neither table leaves
`stock_base` at its initial `0.0` (the source has no `else` branch). -/
def app_dm_stock_base (stock_conc_val : ℚ) (stock_conc_unit : String) (mw : Option ℚ) :
    Except DilutionError ℚ :=
  match lookupTable app_MOLARITY_CONVERSIONS stock_conc_unit,
        lookupTable app_MASS_VOL_CONVERSIONS stock_conc_unit, mw with
  | some factor, _, _ => .ok (stock_conc_val * factor)
  | none, some factor, some mwv =>
      if mwv ≤ 0 then .error .missingMolecularWeight
      else .ok (stock_conc_val * factor / mwv)
  | none, some _, none => .error .missingMolecularWeight
  | none, none, _ => .ok 0

/-- From `src/tabs/02_Dilution_Master.py` `run_tab` (lines 75-83): the same
conversion.  In the mass/volume branch the source computes
`stock_conc_val * MOLARITY_CONVERSIONS[stock_conc_unit]`, i.e. it looks the
unit up in the molarity table again; for every unit that reaches this branch
that lookup raises `KeyError`. -/
def tabs02_dm_stock_base (stock_conc_val : ℚ) (stock_conc_unit : String) (mw : Option ℚ) :
    Except DilutionError ℚ :=
  match lookupTable MOLARITY_CONVERSIONS stock_conc_unit with
  | some factor => .ok (stock_conc_val * factor)
  | none =>
    match mw with
    | none => .error .missingMolecularWeight
    | some mwv =>
      if mwv ≤ 0 then .error .missingMolecularWeight
      else
        match lookupTable MOLARITY_CONVERSIONS stock_conc_unit with
        | some factor => .ok (stock_conc_val * factor / mwv)
        | none => .error .unknownUnit

/-- Volumes computed by the Dilution Master single-step arithmetic,
`src/app.py` lines 361-363. -/
structure SingleStepResult where
  dilution_factor : ℚ
  stock_vol_needed_base : ℚ
  diluent_vol_needed_base : ℚ
deriving DecidableEq

/-- From `src/app.py` `dilution_master_tab` (lines 354-366): the ordering
check, the zero checks, then the single-step volumes. -/
def app_dilution_master_calc (stock_base target_base final_vol_base : ℚ) :
    Except DilutionError SingleStepResult :=
  if stock_base ≤ target_base then .error .invalidConcentrationOrder
  else if stock_base = 0 ∨ target_base = 0 ∨ final_vol_base = 0 then .error .invalidParameter
  else
    .ok { dilution_factor := stock_base / target_base
          stock_vol_needed_base := target_base * final_vol_base / stock_base
          diluent_vol_needed_base := final_vol_base - target_base * final_vol_base / stock_base }

/-- Branch outcome of the tabs/02 Dilution Master: the two-step protocol
(dilution factor above 100) or the direct single-step volumes. -/
inductive Tabs02Outcome where
  | twoStep (stock_for_inter diluent_for_inter stock_for_final diluent_for_final : ℚ)
  | direct (stock_vol_needed_base diluent_vol_needed_base : ℚ)
deriving DecidableEq

/-- From `src/tabs/02_Dilution_Master.py` `run_tab` (lines 105-159): checks,
then either the 1:100 two-step protocol or the direct dilution. -/
def tabs02_dilution_master_calc (stock_base target_base final_vol_base : ℚ) :
    Except DilutionError Tabs02Outcome :=
  if stock_base ≤ target_base then .error .invalidConcentrationOrder
  else if stock_base ≤ 0 ∨ target_base ≤ 0 ∨ final_vol_base ≤ 0 then .error .invalidParameter
  else
    let dilution_factor := stock_base / target_base
    if 100 < dilution_factor then
      let factor1 : ℚ := 100
      let intermediate_vol_L : ℚ := 1/1000
      let stock_for_inter_L := intermediate_vol_L / factor1
      let diluent_for_inter_L := intermediate_vol_L - stock_for_inter_L
      let factor2 := dilution_factor / factor1
      let stock_for_final_L := final_vol_base / factor2
      .ok (.twoStep stock_for_inter_L diluent_for_inter_L stock_for_final_L
            (final_vol_base - stock_for_final_L))
    else
      let stock_vol_needed_base := target_base * final_vol_base / stock_base
      .ok (.direct stock_vol_needed_base (final_vol_base - stock_vol_needed_base))

/-- Volumes computed by the Serial Dilution Planner,
`src/tabs/03_Serial_Dilution_Planner.py` lines 48-58 (identical to
`src/src/tabs.py` lines 263-273). -/
structure SerialPlan where
  transfer_vol_base : ℚ
  intermediate_vol_base : ℚ
  stock_for_intermediate_base : ℚ
  diluent_for_intermediate_base : ℚ
  diluent_for_final_tube_base : ℚ
  total_diluent_needed_base : ℚ
deriving DecidableEq

/-- From `src/tabs/03_Serial_Dilution_Planner.py` `run_tab` (lines 43-58):
the factor check and the constant-final-volume serial dilution volumes. -/
def serial_dilution_plan (num_dilutions : ℕ) (dilution_factor final_vol_base : ℚ) :
    Except DilutionError SerialPlan :=
  if dilution_factor ≤ 1 then .error .invalidParameter
  else
    let transfer_vol_base := final_vol_base / (dilution_factor - 1)
    let intermediate_vol_base := final_vol_base + transfer_vol_base
    let stock_for_intermediate_base := intermediate_vol_base / dilution_factor
    let diluent_for_intermediate_base := intermediate_vol_base - stock_for_intermediate_base
    let diluent_for_final_tube_base := final_vol_base - final_vol_base / dilution_factor
    let total_diluent_needed_base :=
      if 1 < num_dilutions then
        diluent_for_intermediate_base * ((num_dilutions - 1 : ℕ) : ℚ) + diluent_for_final_tube_base
      else diluent_for_final_tube_base
    .ok { transfer_vol_base, intermediate_vol_base, stock_for_intermediate_base,
          diluent_for_intermediate_base, diluent_for_final_tube_base,
          total_diluent_needed_base }

/-- One geometric-decay loop of the IC50 planner
(`current_conc` appended then divided by the factor, `n` times): returns the
emitted points and the final carry-over value of `current_conc`. -/
def decaySeries (factor : ℚ) : ℚ → ℕ → List ℚ × ℚ
  | current_conc, 0 => ([], current_conc)
  | current_conc, n + 1 =>
      ((current_conc :: (decaySeries factor (current_conc / factor) n).1),
       (decaySeries factor (current_conc / factor) n).2)

/-- Modelled from the spec wording of cascade continuity: the point sequence
is repeated division, each point divided by its own factor to produce the
next point. -/
def repeatedDivision : ℚ → List ℚ → List ℚ
  | _, [] => []
  | current, f :: rest => current :: repeatedDivision (current / f) rest

/-- Modelled from the spec wording: full cascade point list as repeated
division by each range's own factor in range order
(upper-sparse, dense, lower-sparse). -/
def cascadeSpecPoints (highest fs fd : ℚ) (nu nd nl : ℕ) : List ℚ :=
  repeatedDivision highest
    (List.replicate nu fs ++ List.replicate nd fd ++ List.replicate nl fs)

/-- From `src/tabs/04_IC50_Planner.py` `run_tab` (lines 61-76): the three
sequential decay loops sharing one running `current_conc`, concatenated into
`final_concentrations`. -/
def tabs04_final_concentrations (highest fs fd : ℚ) (nu nd nl : ℕ) : List ℚ :=
  (decaySeries fs highest nu).1 ++
  (decaySeries fd (decaySeries fs highest nu).2 nd).1 ++
  (decaySeries fs (decaySeries fd (decaySeries fs highest nu).2 nd).2 nl).1

/-- From `src/src/tabs.py` `ic50_planner_tab` (lines 365-393): the rewritten
concentration generation.  Each range is guarded by its point count; the
dense range starts from `upper[-1]/sparse_factor` if the upper list is
non-empty else from `highest`, and the lower range starts from
`dense[-1]/dense_factor` if the dense list is non-empty else from
`highest`. -/
def tabsPy_final_concentrations (highest fs fd : ℚ) (nu nd nl : ℕ) : List ℚ :=
  let upper_sparse_concs := if 0 < nu then (decaySeries fs highest nu).1 else []
  let start_conc_dense :=
    (upper_sparse_concs.getLast?.map (fun x => x / fs)).getD highest
  let dense_concs := if 0 < nd then (decaySeries fd start_conc_dense nd).1 else []
  let start_conc_lower :=
    (dense_concs.getLast?.map (fun x => x / fd)).getD highest
  let lower_sparse_concs := if 0 < nl then (decaySeries fs start_conc_lower nl).1 else []
  upper_sparse_concs ++ dense_concs ++ lower_sparse_concs

/-- One call of `generate_group_protocol` as issued by
`src/tabs/04_IC50_Planner.py` `run_tab`. -/
structure GroupCall where
  title : String
  concs : List ℚ
  factor : ℚ
  source_stock_conc : ℚ
deriving DecidableEq

/-- From `src/tabs/04_IC50_Planner.py` `run_tab` (lines 137-145): the three
`generate_group_protocol` calls; every call passes `main_stock_base` as
`source_stock_conc`. -/
def tabs04_group_calls (main_stock_base highest_conc_base fs fd : ℚ) (nu nd nl : ℕ) :
    List GroupCall :=
  [⟨"Upper Sparse Range", (decaySeries fs highest_conc_base nu).1, fs, main_stock_base⟩,
   ⟨"Dense Range", (decaySeries fd (decaySeries fs highest_conc_base nu).2 nd).1, fd,
     main_stock_base⟩,
   ⟨"Lower Sparse Range",
     (decaySeries fs (decaySeries fd (decaySeries fs highest_conc_base nu).2 nd).2 nl).1, fs,
     main_stock_base⟩]

/-- From `src/src/tabs.py` `generate_protocol_section` (lines 396-439): the
value returned to the caller, used as the next range's starting stock:
`concs[-1] / factor` unless the section is the last stage (or there is no
section after it), `None` for an empty range. -/
def tabsPy_section_carry (title : String) (concs : List ℚ) (factor : ℚ)
    (lower_sparse_empty : Bool) : Option ℚ :=
  match concs.getLast? with
  | none => none
  | some lastc =>
    if title = "Lower Sparse Range Protocol" ∨
       (title = "Dense Range Protocol" ∧ lower_sparse_empty = true) then none
    else some (lastc / factor)

/-- From `src/tabs/04_IC50_Planner.py` `generate_group_protocol` (lines
90-92): the volume prepared in the first tube of a range (`final_vol_base`
plus the transfer volume when the range is a series with factor above 1). -/
def ic50_initial_tube_vol (rest : List ℚ) (factor final_vol_base : ℚ) : ℚ :=
  final_vol_base + (if rest ≠ [] ∧ 1 < factor then final_vol_base / (factor - 1) else 0)

/-- From `src/tabs/04_IC50_Planner.py` `generate_group_protocol` (line 94):
the direct pipette volume for the first tube of a range, drawn from
`source_stock_conc`. -/
def ic50_stock_vol_needed (group_start_conc : ℚ) (rest : List ℚ)
    (factor source_stock_conc final_vol_base : ℚ) : ℚ :=
  group_start_conc * ic50_initial_tube_vol rest factor final_vol_base / source_stock_conc

/-- First-tube preparation decided by `generate_group_protocol`: whether the
1:10 intermediate stock was inserted, the stock actually pipetted from, and
the two volumes. -/
structure FirstTube where
  used_intermediate : Bool
  source_conc : ℚ
  stock_vol : ℚ
  diluent_vol : ℚ
deriving DecidableEq

/-- From `src/tabs/04_IC50_Planner.py` `generate_group_protocol` (lines
82-123): first-tube preparation.  If the direct stock volume in µL falls
below `MIN_PIPETTE_VOL_UL = 1.0`, a 1:10 intermediate stock
(`source_stock_conc / 10`) is created and the volumes are recomputed against
it; otherwise the direct volumes are used.  `none` for an empty range. -/
def ic50_first_tube (concs : List ℚ) (factor source_stock_conc final_vol_base : ℚ) :
    Option FirstTube :=
  match concs with
  | [] => none
  | group_start_conc :: rest =>
    let stock_vol_needed_base :=
      ic50_stock_vol_needed group_start_conc rest factor source_stock_conc final_vol_base
    if stock_vol_needed_base * 1000000 < 1 then
      let intermediate_stock_conc := source_stock_conc / 10
      let stock_vol_from_inter_base :=
        group_start_conc * ic50_initial_tube_vol rest factor final_vol_base /
          intermediate_stock_conc
      some ⟨true, intermediate_stock_conc, stock_vol_from_inter_base,
            ic50_initial_tube_vol rest factor final_vol_base - stock_vol_from_inter_base⟩
    else
      some ⟨false, source_stock_conc, stock_vol_needed_base,
            ic50_initial_tube_vol rest factor final_vol_base - stock_vol_needed_base⟩

/-- Output shape of the molarity formatter: either the special-cased zero
literal, or the mantissa handed to Python `%.4g` formatting together with
the unit text appended after it. -/
inductive FormattedConc where
  | literal (s : String)
  | fmt4g (mantissa : ℚ) (unitText : String)
deriving DecidableEq

/-- From `src/src/common.py` `format_molarity` (lines 42-58): zero is the
literal `"0M"`; otherwise the first scale, descending M, mM, uM, nM, whose
threshold the value meets, falling through to pM. -/
def format_molarity (molarity_in_M : ℚ) : FormattedConc :=
  if molarity_in_M = 0 then .literal "0M"
  else if molarity_in_M ≥ 1 then .fmt4g molarity_in_M "M"
  else if molarity_in_M ≥ 1/1000 then .fmt4g (molarity_in_M * 1000) "mM"
  else if molarity_in_M ≥ 1/1000000 then .fmt4g (molarity_in_M * 1000000) "uM"
  else if molarity_in_M ≥ 1/10^9 then .fmt4g (molarity_in_M * 10^9) "nM"
  else .fmt4g (molarity_in_M * 10^12) "pM"

/-- From `src/app.py` `format_molarity` (lines 58-71): zero is the literal
`"0 M"`; the non-zero branches are the same thresholds with spaced unit
texts. -/
def app_format_molarity (molarity_in_M : ℚ) : FormattedConc :=
  if molarity_in_M = 0 then .literal "0 M"
  else if molarity_in_M ≥ 1 then .fmt4g molarity_in_M " M"
  else if molarity_in_M ≥ 1/1000 then .fmt4g (molarity_in_M * 1000) " mM"
  else if molarity_in_M ≥ 1/1000000 then .fmt4g (molarity_in_M * 1000000) " µM"
  else if molarity_in_M ≥ 1/10^9 then .fmt4g (molarity_in_M * 10^9) " nM"
  else .fmt4g (molarity_in_M * 10^12) " pM"

/-- Position of a formatter output's scale in the descending scale list
(0 for M down to 4 for pM); larger means finer. -/
def molar_scale_index : FormattedConc → ℕ
  | .literal _ => 0
  | .fmt4g _ u =>
      if u = "M" ∨ u = " M" then 0
      else if u = "mM" ∨ u = " mM" then 1
      else if u = "uM" ∨ u = " µM" then 2
      else if u = "nM" ∨ u = " nM" then 3
      else 4

/-! Theorems. -/

/-- C4: for every request with `stock_base > target_base > 0` and
`final_volume_base > 0`, the Dilution Master single-step result satisfies
`stock_vol_needed = target_base * final_volume_base / stock_base` and
`diluent_vol_needed = final_volume_base - stock_vol_needed`, hence their sum
equals `final_volume_base` (exactly, so in particular within 1e-9 relative
tolerance). -/
theorem single_step_direct_volumes (s t V : ℚ) (h1 : t < s) (h2 : 0 < t) (h3 : 0 < V) :
    app_dilution_master_calc s t V =
      .ok ⟨s / t, t * V / s, V - t * V / s⟩ ∧
    t * V / s + (V - t * V / s) = V ∧
    |t * V / s + (V - t * V / s) - V| ≤ 1/10^9 * V := by
  refine ⟨?_, by ring, ?_⟩
  · have hs : s ≠ 0 := ne_of_gt (lt_trans h2 h1)
    have ht : t ≠ 0 := ne_of_gt h2
    have hV : V ≠ 0 := ne_of_gt h3
    unfold app_dilution_master_calc
    rw [if_neg (not_le.mpr h1), if_neg (by push_neg; exact ⟨hs, ht, hV⟩)]
  · have hzero : t * V / s + (V - t * V / s) - V = 0 := by ring
    rw [hzero, abs_zero]
    positivity

/-- C4 witness: stock 1 M, target 10 mM (1/100 M), final volume 1 L. -/
theorem single_step_direct_volumes_witness :
    app_dilution_master_calc 1 (1/100) 1 =
      .ok ⟨1 / (1/100), (1/100) * 1 / 1, 1 - (1/100) * 1 / 1⟩ ∧
    (1/100 : ℚ) * 1 / 1 + (1 - (1/100) * 1 / 1) = 1 ∧
    |(1/100 : ℚ) * 1 / 1 + (1 - (1/100) * 1 / 1) - 1| ≤ 1/10^9 * 1 :=
  single_step_direct_volumes 1 (1/100) 1 (by norm_num) (by norm_num) (by norm_num)

/-- C7: for every input with `stock_base ≤ target_base`, both Dilution Master
implementations fail with the concentration-ordering error before any volume
arithmetic and produce no result record. -/
theorem order_violation_fails (s t V : ℚ) (h : s ≤ t) :
    app_dilution_master_calc s t V = .error .invalidConcentrationOrder ∧
    tabs02_dilution_master_calc s t V = .error .invalidConcentrationOrder := by
  constructor
  · unfold app_dilution_master_calc
    rw [if_pos h]
  · unfold tabs02_dilution_master_calc
    rw [if_pos h]

/-- C7 witness: stock 1 mM (1/1000 M) against target 1 M fails. -/
theorem order_violation_fails_witness :
    app_dilution_master_calc (1/1000) 1 (1/1000) = .error .invalidConcentrationOrder ∧
    tabs02_dilution_master_calc (1/1000) 1 (1/1000) = .error .invalidConcentrationOrder :=
  order_violation_fails (1/1000) 1 (1/1000) (by norm_num)

/-- C5: for every factor `F > 1`, final volume `V > 0` and tube count
`N ≥ 1`, the serial planner computes `transfer_vol = V / (F - 1)`,
tube-1 prepared volume `V + transfer_vol`,
`stock_vol_for_tube1 = (V + transfer_vol) / F`,
`diluent_for_tube1 = (V + transfer_vol) - stock_vol_for_tube1`,
last-tube diluent `V - V / F`, and total diluent
`diluent_for_tube1 * (N - 1) + diluent_for_last` when `N > 1` else just the
last-tube diluent. -/
theorem serial_planner_volumes (F V : ℚ) (N : ℕ) (hF : 1 < F) (hV : 0 < V) (hN : 1 ≤ N) :
    serial_dilution_plan N F V = .ok
      { transfer_vol_base := V / (F - 1)
        intermediate_vol_base := V + V / (F - 1)
        stock_for_intermediate_base := (V + V / (F - 1)) / F
        diluent_for_intermediate_base := (V + V / (F - 1)) - (V + V / (F - 1)) / F
        diluent_for_final_tube_base := V - V / F
        total_diluent_needed_base :=
          if 1 < N then
            ((V + V / (F - 1)) - (V + V / (F - 1)) / F) * ((N : ℚ) - 1) + (V - V / F)
          else V - V / F } := by
  unfold serial_dilution_plan
  rw [if_neg (not_le.mpr hF)]
  have hcast : ((N - 1 : ℕ) : ℚ) = (N : ℚ) - 1 := by
    push_cast [hN]
    ring
  rw [hcast]

/-- C5 witness: factor 10, N = 3 tubes, final volume 1000 µL (1/1000 L). -/
theorem serial_planner_volumes_witness :
    serial_dilution_plan 3 10 (1/1000) = .ok
      { transfer_vol_base := (1/1000) / (10 - 1)
        intermediate_vol_base := 1/1000 + (1/1000) / (10 - 1)
        stock_for_intermediate_base := (1/1000 + (1/1000) / (10 - 1)) / 10
        diluent_for_intermediate_base :=
          (1/1000 + (1/1000) / (10 - 1)) - (1/1000 + (1/1000) / (10 - 1)) / 10
        diluent_for_final_tube_base := 1/1000 - (1/1000) / 10
        total_diluent_needed_base :=
          if 1 < 3 then
            ((1/1000 + (1/1000) / (10 - 1)) - (1/1000 + (1/1000) / (10 - 1)) / 10) *
              ((3 : ℚ) - 1) + (1/1000 - (1/1000) / 10)
          else 1/1000 - (1/1000) / 10 } :=
  serial_planner_volumes 10 (1/1000) 3 (by norm_num) (by norm_num) (by norm_num)

/-- C9: for every factor `F > 1` and final volume `V`, the diluent computed
for the non-last tubes equals `V` exactly,
`(V + V/(F-1)) - (V + V/(F-1))/F = V`; consequently a middle tube that
receives this diluent, gains the transfer volume and donates it onward ends
at exactly `V`, and tube 1 (diluent plus stock minus the donated transfer)
also ends at exactly `V`. -/
theorem serial_diluent_is_final_volume (F V : ℚ) (N : ℕ) (p : SerialPlan) (hF : 1 < F)
    (hp : serial_dilution_plan N F V = .ok p) :
    p.diluent_for_intermediate_base = V ∧
    p.diluent_for_intermediate_base + p.transfer_vol_base - p.transfer_vol_base = V ∧
    p.diluent_for_intermediate_base + p.stock_for_intermediate_base - p.transfer_vol_base
      = V := by
  have hF0 : F ≠ 0 := by positivity
  have hF1 : F - 1 ≠ 0 := by
    intro h
    have : F = 1 := by linarith
    exact absurd this (by linarith)
  unfold serial_dilution_plan at hp
  rw [if_neg (not_le.mpr hF)] at hp
  have hpeq := (Except.ok.injEq _ _).mp hp.symm
  subst hpeq
  refine ⟨?_, ?_, ?_⟩ <;>
    · simp only
      field_simp
      ring

/-- C9 witness: factor 2, final volume 1 L, N = 3 tubes
(plan evaluates to transfer 1, intermediate 2, stock 1, diluents 1 and 1/2,
total 5/2). -/
theorem serial_diluent_is_final_volume_witness :
    (⟨1, 2, 1, 1, 1/2, 5/2⟩ : SerialPlan).diluent_for_intermediate_base = 1 ∧
    (⟨1, 2, 1, 1, 1/2, 5/2⟩ : SerialPlan).diluent_for_intermediate_base +
      (⟨1, 2, 1, 1, 1/2, 5/2⟩ : SerialPlan).transfer_vol_base -
      (⟨1, 2, 1, 1, 1/2, 5/2⟩ : SerialPlan).transfer_vol_base = 1 ∧
    (⟨1, 2, 1, 1, 1/2, 5/2⟩ : SerialPlan).diluent_for_intermediate_base +
      (⟨1, 2, 1, 1, 1/2, 5/2⟩ : SerialPlan).stock_for_intermediate_base -
      (⟨1, 2, 1, 1, 1/2, 5/2⟩ : SerialPlan).transfer_vol_base = 1 :=
  serial_diluent_is_final_volume 2 1 3 ⟨1, 2, 1, 1, 1/2, 5/2⟩ (by norm_num)
    (by unfold serial_dilution_plan; norm_num)

/-- Dividing by a ten-fold diluted stock takes ten times the volume; holds
unconditionally in `ℚ` (both sides are 0 when the stock is 0). -/
theorem div_by_tenth_stock (x s : ℚ) : x / (s / 10) = 10 * (x / s) := by
  rw [div_div_eq_mul_div]
  ring

/-- C6: the direct first-tube pipette volume is
`(range_start_conc * initial_tube_vol) / source_conc`; exactly when that
volume is below the 1 µL threshold the planner inserts a 1:10 intermediate
stock of concentration `source_conc / 10` and recomputes the volumes against
it, the recomputed stock volume being 10 times the direct volume; otherwise
the direct volumes are used. -/
theorem ic50_first_tube_pipette (c : ℚ) (rest : List ℚ) (factor source V : ℚ) :
    (ic50_stock_vol_needed c rest factor source V * 1000000 < 1 →
      ic50_first_tube (c :: rest) factor source V =
        some ⟨true, source / 10, 10 * ic50_stock_vol_needed c rest factor source V,
          ic50_initial_tube_vol rest factor V -
            10 * ic50_stock_vol_needed c rest factor source V⟩) ∧
    (¬ ic50_stock_vol_needed c rest factor source V * 1000000 < 1 →
      ic50_first_tube (c :: rest) factor source V =
        some ⟨false, source, ic50_stock_vol_needed c rest factor source V,
          ic50_initial_tube_vol rest factor V -
            ic50_stock_vol_needed c rest factor source V⟩) := by
  have hten : c * ic50_initial_tube_vol rest factor V / (source / 10) =
      10 * ic50_stock_vol_needed c rest factor source V := by
    rw [div_by_tenth_stock]
    unfold ic50_stock_vol_needed
    rfl
  have hunfold : ic50_first_tube (c :: rest) factor source V =
      (if ic50_stock_vol_needed c rest factor source V * 1000000 < 1 then
        some ⟨true, source / 10, c * ic50_initial_tube_vol rest factor V / (source / 10),
          ic50_initial_tube_vol rest factor V -
            c * ic50_initial_tube_vol rest factor V / (source / 10)⟩
      else
        some ⟨false, source, ic50_stock_vol_needed c rest factor source V,
          ic50_initial_tube_vol rest factor V -
            ic50_stock_vol_needed c rest factor source V⟩) := rfl
  constructor
  · intro h
    rw [hunfold, if_pos h, hten]
  · intro h
    rw [hunfold, if_neg h]

/-- C6 witness: with final volume 100 µL and a single-point range, a 1 nM
first point from a 10 mM source needs 0.00001 µL directly (below threshold:
intermediate inserted), while a 1 mM first point needs 10 µL (direct). -/
theorem ic50_first_tube_pipette_witness :
    (ic50_first_tube [1/10^9] 10 (1/100) (1/10^4) =
      some ⟨true, (1/100) / 10, 10 * ic50_stock_vol_needed (1/10^9) [] 10 (1/100) (1/10^4),
        ic50_initial_tube_vol [] 10 (1/10^4) -
          10 * ic50_stock_vol_needed (1/10^9) [] 10 (1/100) (1/10^4)⟩) ∧
    (ic50_first_tube [1/1000] 10 (1/100) (1/10^4) =
      some ⟨false, 1/100, ic50_stock_vol_needed (1/1000) [] 10 (1/100) (1/10^4),
        ic50_initial_tube_vol [] 10 (1/10^4) -
          ic50_stock_vol_needed (1/1000) [] 10 (1/100) (1/10^4)⟩) :=
  ⟨(ic50_first_tube_pipette (1/10^9) [] 10 (1/100) (1/10^4)).1
      (by norm_num [ic50_stock_vol_needed, ic50_initial_tube_vol]),
   (ic50_first_tube_pipette (1/1000) [] 10 (1/100) (1/10^4)).2
      (by norm_num [ic50_stock_vol_needed, ic50_initial_tube_vol])⟩

/-- Mass/volume stock conversion through `src/app.py` for a unit found in
the mass table but not the molarity table. -/
theorem app_dm_stock_base_mass_vol {u : String} {f : ℚ}
    (h1 : lookupTable app_MOLARITY_CONVERSIONS u = none)
    (h2 : lookupTable app_MASS_VOL_CONVERSIONS u = some f)
    {m : ℚ} (hm : 0 < m) (v : ℚ) :
    app_dm_stock_base v u (some m) = Except.ok (v * f / m) := by
  unfold app_dm_stock_base
  rw [h1, h2]
  exact if_neg (not_le.mpr hm)

/-- C2: for every recognized mass/volume unit and every MW > 0, the base
molar stock computed by `src/app.py` equals
`(value * massVolFactor) / MW` with the factor taken from the
mass-concentration table; the tabs/02 implementation instead looks the unit
up in the molarity table and raises `KeyError` (here `unknownUnit`) for the
recognized unit `mg/mL` even though that unit has factor 1 in the
mass-concentration table. -/
theorem mass_vol_stock_conversion :
    (∀ p ∈ app_MASS_VOL_CONVERSIONS, ∀ v m : ℚ, 0 < m →
      app_dm_stock_base v p.1 (some m) = Except.ok (v * p.2 / m)) ∧
    tabs02_dm_stock_base 1 "mg/mL" (some 100) = Except.error .unknownUnit ∧
    lookupTable MASS_VOL_CONVERSIONS "mg/mL" = some 1 := by
  refine ⟨?_, rfl, rfl⟩
  intro p hp v m hm
  fin_cases hp <;>
    exact app_dm_stock_base_mass_vol (by rfl) (by rfl) hm v

/-- C2 witness: 1 mg/mL with MW 100 g/mol converts to 0.01 M through the
`src/app.py` implementation. -/
theorem mass_vol_stock_conversion_witness :
    app_dm_stock_base 1 "mg/mL" (some 100) = Except.ok (1 * 1 / 100) :=
  mass_vol_stock_conversion.1 ("mg/mL", 1) (by norm_num [app_MASS_VOL_CONVERSIONS]) 1 100
    (by norm_num)

/-- Scale index of the literal zero outputs. -/
theorem msi_literal (s : String) : molar_scale_index (.literal s) = 0 := rfl

/-- Scale index of the app.py `M` output. -/
theorem msi_app_M (m : ℚ) : molar_scale_index (.fmt4g m " M") = 0 := rfl

/-- Scale index of the app.py `mM` output. -/
theorem msi_app_mM (m : ℚ) : molar_scale_index (.fmt4g m " mM") = 1 := rfl

/-- Scale index of the app.py `µM` output. -/
theorem msi_app_uM (m : ℚ) : molar_scale_index (.fmt4g m " µM") = 2 := rfl

/-- Scale index of the app.py `nM` output. -/
theorem msi_app_nM (m : ℚ) : molar_scale_index (.fmt4g m " nM") = 3 := rfl

/-- Scale index of the app.py `pM` output. -/
theorem msi_app_pM (m : ℚ) : molar_scale_index (.fmt4g m " pM") = 4 := rfl

/-- Scale index of the common.py `M` output. -/
theorem msi_common_M (m : ℚ) : molar_scale_index (.fmt4g m "M") = 0 := rfl

/-- Scale index of the common.py `mM` output. -/
theorem msi_common_mM (m : ℚ) : molar_scale_index (.fmt4g m "mM") = 1 := rfl

/-- Scale index of the common.py `uM` output. -/
theorem msi_common_uM (m : ℚ) : molar_scale_index (.fmt4g m "uM") = 2 := rfl

/-- Scale index of the common.py `nM` output. -/
theorem msi_common_nM (m : ℚ) : molar_scale_index (.fmt4g m "nM") = 3 := rfl

/-- Scale index of the common.py `pM` output. -/
theorem msi_common_pM (m : ℚ) : molar_scale_index (.fmt4g m "pM") = 4 := rfl

set_option maxHeartbeats 1600000 in
/-- C8 (amended): for every value at least 1e-12 both formatters pick the
largest scale whose displayed magnitude is at least 1 (the mantissa handed
to `%.4g` is in `[1, 1000)` unless the top `M` scale applies, so every
coarser scale would display below 1); for positive values below 1e-12 the
pM fall-through displays a magnitude below 1; the chosen scale is monotone
(never finer for a larger positive value); zero formats as the literal
`"0 M"` in `src/app.py` but as `"0M"` in `src/src/common.py`. -/
theorem format_molarity_scale_selection :
    (∀ v : ℚ, 1/10^12 ≤ v →
      ∃ m u, app_format_molarity v = .fmt4g m u ∧ 1 ≤ m ∧ (u = " M" ∨ m < 1000)) ∧
    (∀ v : ℚ, 1/10^12 ≤ v →
      ∃ m u, format_molarity v = .fmt4g m u ∧ 1 ≤ m ∧ (u = "M" ∨ m < 1000)) ∧
    (∀ v : ℚ, 0 < v → v < 1/10^12 →
      app_format_molarity v = .fmt4g (v * 10^12) " pM" ∧ v * 10^12 < 1 ∧
      format_molarity v = .fmt4g (v * 10^12) "pM") ∧
    (∀ v1 v2 : ℚ, 0 < v2 → v2 < v1 →
      molar_scale_index (app_format_molarity v1) ≤
        molar_scale_index (app_format_molarity v2)) ∧
    (∀ v1 v2 : ℚ, 0 < v2 → v2 < v1 →
      molar_scale_index (format_molarity v1) ≤ molar_scale_index (format_molarity v2)) ∧
    app_format_molarity 0 = .literal "0 M" ∧
    format_molarity 0 = .literal "0M" := by
  refine ⟨?_, ?_, ?_, ?_, ?_, rfl, rfl⟩
  · intro v hv
    unfold app_format_molarity
    split_ifs with h0 hM hmM huM hnM
    · exfalso; rw [h0] at hv; norm_num at hv
    · exact ⟨v, " M", rfl, hM, Or.inl rfl⟩
    · exact ⟨v * 1000, " mM", rfl, by linarith, Or.inr (by linarith)⟩
    · exact ⟨v * 1000000, " µM", rfl, by linarith, Or.inr (by linarith)⟩
    · exact ⟨v * 10^9, " nM", rfl, by norm_num at hnM ⊢ <;> linarith,
        Or.inr (by norm_num at huM ⊢ <;> linarith)⟩
    · exact ⟨v * 10^12, " pM", rfl, by norm_num at hv ⊢ <;> linarith,
        Or.inr (by norm_num at hnM ⊢ <;> linarith)⟩
  · intro v hv
    unfold format_molarity
    split_ifs with h0 hM hmM huM hnM
    · exfalso; rw [h0] at hv; norm_num at hv
    · exact ⟨v, "M", rfl, hM, Or.inl rfl⟩
    · exact ⟨v * 1000, "mM", rfl, by linarith, Or.inr (by linarith)⟩
    · exact ⟨v * 1000000, "uM", rfl, by linarith, Or.inr (by linarith)⟩
    · exact ⟨v * 10^9, "nM", rfl, by norm_num at hnM ⊢ <;> linarith,
        Or.inr (by norm_num at huM ⊢ <;> linarith)⟩
    · exact ⟨v * 10^12, "pM", rfl, by norm_num at hv ⊢ <;> linarith,
        Or.inr (by norm_num at hnM ⊢ <;> linarith)⟩
  · intro v hv0 hv
    norm_num at hv
    unfold app_format_molarity format_molarity
    split_ifs with h0 hM hmM huM hnM h0b hMb hmMb huMb hnMb <;>
      first
        | (refine ⟨rfl, by linarith, rfl⟩)
        | (exfalso; first | linarith | (norm_num at *; linarith))
  · intro v1 v2 h2 h12
    unfold app_format_molarity
    split_ifs <;>
      simp only [msi_literal, msi_app_M, msi_app_mM, msi_app_uM, msi_app_nM, msi_app_pM] <;>
      first | omega | (exfalso; linarith)
  · intro v1 v2 h2 h12
    unfold format_molarity
    split_ifs <;>
      simp only [msi_literal, msi_common_M, msi_common_mM, msi_common_uM, msi_common_nM,
        msi_common_pM] <;>
      first | omega | (exfalso; linarith)

/-- C8 counterexample: the common.py implementation formats 0 as `"0M"`,
not `"0 M"`; and at 1e-15 the chosen pM scale displays magnitude 0.001 < 1,
so no scale displays a magnitude of at least 1. -/
theorem format_molarity_zero_string_cx :
    format_molarity 0 = .literal "0M" ∧
    FormattedConc.literal "0M" ≠ FormattedConc.literal "0 M" ∧
    app_format_molarity (1/10^15) = .fmt4g ((1/10^15) * 10^12) " pM" ∧
    ¬ (1 ≤ (1/10^15 : ℚ) * 10^12) := by
  refine ⟨rfl, by decide, ?_, by norm_num⟩
  unfold app_format_molarity
  norm_num

/-- C8 witness: 2 mM and 2 µM inputs select the mM and µM scales, in
monotone order, for both implementations. -/
theorem format_molarity_scale_selection_witness :
    (∃ m u, app_format_molarity (2/1000) = .fmt4g m u ∧ 1 ≤ m ∧ (u = " M" ∨ m < 1000)) ∧
    (∃ m u, format_molarity (2/1000) = .fmt4g m u ∧ 1 ≤ m ∧ (u = "M" ∨ m < 1000)) ∧
    (app_format_molarity (1/10^13) = .fmt4g ((1/10^13) * 10^12) " pM" ∧
      (1/10^13 : ℚ) * 10^12 < 1 ∧
      format_molarity (1/10^13) = .fmt4g ((1/10^13) * 10^12) "pM") ∧
    molar_scale_index (app_format_molarity (2/1000)) ≤
      molar_scale_index (app_format_molarity (2/1000000)) ∧
    molar_scale_index (format_molarity (2/1000)) ≤
      molar_scale_index (format_molarity (2/1000000)) :=
  ⟨format_molarity_scale_selection.1 (2/1000) (by norm_num),
   format_molarity_scale_selection.2.1 (2/1000) (by norm_num),
   format_molarity_scale_selection.2.2.1 (1/10^13) (by norm_num) (by norm_num),
   format_molarity_scale_selection.2.2.2.1 (2/1000) (2/1000000) (by norm_num) (by norm_num),
   format_molarity_scale_selection.2.2.2.2.1 (2/1000) (2/1000000) (by norm_num) (by norm_num)⟩

/-- C10: the formatter is total and never rejects a negative concentration;
for every negative value all scale thresholds fail and both implementations
fall through to the pM branch, formatting `v * 1e12` with the pM unit
text. -/
theorem negative_molarity_formats_pico (v : ℚ) (hv : v < 0) :
    format_molarity v = .fmt4g (v * 10^12) "pM" ∧
    app_format_molarity v = .fmt4g (v * 10^12) " pM" := by
  constructor
  · unfold format_molarity
    split_ifs with h0 hM hmM huM hnM <;> first | rfl | (exfalso; norm_num at *; linarith)
  · unfold app_format_molarity
    split_ifs with h0 hM hmM huM hnM <;> first | rfl | (exfalso; norm_num at *; linarith)

/-- C10 witness: the formatters at -1 M. -/
theorem negative_molarity_formats_pico_witness :
    format_molarity (-1) = .fmt4g ((-1) * 10^12) "pM" ∧
    app_format_molarity (-1) = .fmt4g ((-1) * 10^12) " pM" :=
  negative_molarity_formats_pico (-1) (by norm_num)

/-- Repeated division over a block of `n` equal factors followed by more
factors: the block contributes one decay series and hands its carry-over to
the remaining factors. -/
theorem repeatedDivision_replicate (f : ℚ) (n : ℕ) :
    ∀ (s : ℚ) (rest : List ℚ),
      repeatedDivision s (List.replicate n f ++ rest) =
        (decaySeries f s n).1 ++ repeatedDivision (decaySeries f s n).2 rest := by
  induction n with
  | zero => intro s rest; simp [decaySeries]
  | succ n ih =>
      intro s rest
      simp only [List.replicate_succ, List.cons_append, repeatedDivision, decaySeries,
        List.append_eq, ih (s / f) rest]

/-- Repeated division over a trailing block of equal factors is exactly the
block's decay series. -/
theorem repeatedDivision_replicate_nil (f : ℚ) (n : ℕ) (s : ℚ) :
    repeatedDivision s (List.replicate n f) = (decaySeries f s n).1 := by
  have h := repeatedDivision_replicate f n s []
  simpa [repeatedDivision] using h

/-- The last emitted point of a decay series divided by the factor is the
series' carry-over value (with the series start as the empty-list
default). -/
theorem decaySeries_carry (f : ℚ) (n : ℕ) :
    ∀ s : ℚ,
      (((decaySeries f s n).1.getLast?.map (fun x => x / f)).getD s) =
        (decaySeries f s n).2 := by
  induction n with
  | zero => intro s; simp [decaySeries]
  | succ n ih =>
      intro s
      have h2 := ih (s / f)
      rcases hcons : (decaySeries f (s / f) n).1 with _ | ⟨b, l⟩
      · rw [hcons] at h2
        simp only [List.getLast?_nil, Option.map_none', Option.getD_none] at h2
        simp [decaySeries, hcons, ← h2]
      · rw [hcons] at h2
        simp only [decaySeries, hcons, List.getLast?_cons_cons]
        rcases hlast : (b :: l).getLast? with _ | x
        · exact absurd (List.getLast?_eq_none_iff.mp hlast) (by simp)
        · rw [hlast] at h2
          simpa using h2

/-- A decay series with a positive point count emits at least one point. -/
theorem decaySeries_fst_ne_nil (f s : ℚ) (n : ℕ) (hn : 0 < n) :
    (decaySeries f s n).1 ≠ [] := by
  cases n with
  | zero => omega
  | succ n => simp [decaySeries]

/-- The `getD` default is irrelevant once the list is non-empty. -/
theorem getLast_map_getD_irrel (l : List ℚ) (g : ℚ → ℚ) (d e : ℚ) (h : l ≠ []) :
    (l.getLast?.map g).getD d = (l.getLast?.map g).getD e := by
  rcases hl : l.getLast? with _ | x
  · exact absurd (List.getLast?_eq_none_iff.mp hl) h
  · rfl

/-- The point-count guard around a decay loop is redundant: a zero count
already emits no points. -/
theorem if_decay_fst (f s : ℚ) (n : ℕ) :
    (if 0 < n then (decaySeries f s n).1 else []) = (decaySeries f s n).1 := by
  rcases Nat.eq_zero_or_pos n with h | h
  · subst h; simp [decaySeries]
  · rw [if_pos h]

/-- C3 (amended): the tabs/04 concentration list equals repeated division by
each range's own factor in range order for every choice of point counts and
factors (zero-count ranges contribute nothing and leave the carry-over
unchanged); the src/tabs.py list equals the same cascade whenever the dense
range is non-empty (its UI enforces at least 2 dense points). -/
theorem cascade_points_continuity (highest fs fd : ℚ) (nu nd nl : ℕ) :
    tabs04_final_concentrations highest fs fd nu nd nl =
      cascadeSpecPoints highest fs fd nu nd nl ∧
    (0 < nd →
      tabsPy_final_concentrations highest fs fd nu nd nl =
        cascadeSpecPoints highest fs fd nu nd nl) := by
  have hspec : cascadeSpecPoints highest fs fd nu nd nl =
      tabs04_final_concentrations highest fs fd nu nd nl := by
    unfold cascadeSpecPoints tabs04_final_concentrations
    rw [List.append_assoc, repeatedDivision_replicate, repeatedDivision_replicate,
      repeatedDivision_replicate_nil, ← List.append_assoc]
  refine ⟨hspec.symm, ?_⟩
  intro hnd
  rw [hspec]
  simp only [tabs04_final_concentrations, tabsPy_final_concentrations]
  rw [if_decay_fst, decaySeries_carry, if_pos hnd,
    getLast_map_getD_irrel (decaySeries fd (decaySeries fs highest nu).2 nd).1
      (fun x => x / fd) highest ((decaySeries fs highest nu).2)
      (decaySeries_fst_ne_nil _ _ _ hnd),
    decaySeries_carry, if_decay_fst]

/-- C3 witness: counts (2, 6, 2) with factors 10 and 2 starting at 10 µM,
the spec's continuity example. -/
theorem cascade_points_continuity_witness :
    tabs04_final_concentrations (1/100000) 10 2 2 6 2 =
      cascadeSpecPoints (1/100000) 10 2 2 6 2 ∧
    tabsPy_final_concentrations (1/100000) 10 2 2 6 2 =
      cascadeSpecPoints (1/100000) 10 2 2 6 2 :=
  ⟨(cascade_points_continuity (1/100000) 10 2 2 6 2).1,
   (cascade_points_continuity (1/100000) 10 2 2 6 2).2 (by norm_num)⟩

/-- C3 counterexample: with a non-empty upper range, an empty dense range
and a non-empty lower range (counts 1, 0, 1; factors 10 and 2), the
src/tabs.py generation restarts the lower range at the highest
concentration, producing [1, 1] instead of the continuous [1, 1/10]. -/
theorem cascade_discontinuity_cx :
    tabsPy_final_concentrations 1 10 2 1 0 1 = [1, 1] ∧
    cascadeSpecPoints 1 10 2 1 0 1 = [1, 1/10] ∧
    tabsPy_final_concentrations 1 10 2 1 0 1 ≠ cascadeSpecPoints 1 10 2 1 0 1 := by
  refine ⟨?_, ?_, ?_⟩ <;>
    norm_num [tabsPy_final_concentrations, cascadeSpecPoints, decaySeries, repeatedDivision]

/-- C1 (amended): in the tabs/04 planner every range's first tube, including
ranges after the first, is prepared from the main stock: all three
`generate_group_protocol` calls pass `main_stock_base` as the source
concentration of the pipette-volume formula.  The carry-over chaining
`previous_range.last_point / previous_range.factor` exists only in the
src/tabs.py variant, whose section return value hands exactly the
carry-over of the upper decay series to the dense section. -/
theorem ic50_group_source_stock (main highest fs fd : ℚ) (nu nd nl : ℕ)
    (lower_empty : Bool) :
    (∀ c ∈ tabs04_group_calls main highest fs fd nu nd nl, c.source_stock_conc = main) ∧
    (0 < nu →
      tabsPy_section_carry "Upper Sparse Range Protocol" (decaySeries fs highest nu).1 fs
        lower_empty = some (decaySeries fs highest nu).2) := by
  constructor
  · intro c hc
    simp only [tabs04_group_calls, List.mem_cons, List.not_mem_nil, or_false] at hc
    rcases hc with rfl | rfl | rfl <;> rfl
  · intro hnu
    unfold tabsPy_section_carry
    rcases hlast : (decaySeries fs highest nu).1.getLast? with _ | x
    · exact absurd (List.getLast?_eq_none_iff.mp hlast)
        (decaySeries_fst_ne_nil _ _ _ hnu)
    · have hcar := decaySeries_carry fs nu highest
      rw [hlast] at hcar
      simp only [Option.map_some', Option.getD_some] at hcar
      show (if ("Upper Sparse Range Protocol" = "Lower Sparse Range Protocol" ∨
          ("Upper Sparse Range Protocol" = "Dense Range Protocol" ∧
            lower_empty = true)) then none
        else some (x / fs)) = some (decaySeries fs highest nu).2
      rw [if_neg (by rintro (h | ⟨h, -⟩) <;> simp at h), hcar]

/-- C1 witness: main stock 10 mM, highest 10 µM, counts (2, 3, 1), factors
10 and 2; all three sources are the main stock, and the upper section's
carry-over is the series' continuation value. -/
theorem ic50_group_source_stock_witness :
    (∀ c ∈ tabs04_group_calls (1/100) (1/100000) 10 2 2 3 1,
      c.source_stock_conc = 1/100) ∧
    tabsPy_section_carry "Upper Sparse Range Protocol"
      (decaySeries 10 (1/100000) 2).1 10 false = some (decaySeries 10 (1/100000) 2).2 :=
  ⟨(ic50_group_source_stock (1/100) (1/100000) 10 2 2 3 1 false).1,
   (ic50_group_source_stock (1/100) (1/100000) 10 2 2 3 1 false).2 (by norm_num)⟩

/-- C1 counterexample: with main stock 10 mM, highest 10 µM, counts
(2, 3, 1), factors 10 and 2, the dense range is non-empty; the source
concentration used for its first tube is the main stock (1/100 M), not the
carry-over `previous_range.last_point / previous_range.factor`
(= 1e-7 M). -/
theorem ic50_source_not_carry_over_cx :
    ((tabs04_group_calls (1/100) (1/100000) 10 2 2 3 1)[1]?).map
        GroupCall.source_stock_conc = some (1/100) ∧
    ((tabs04_group_calls (1/100) (1/100000) 10 2 2 3 1)[0]?).bind
        (fun c => c.concs.getLast?.map (fun x => x / c.factor)) = some (1/10^7) ∧
    ((tabs04_group_calls (1/100) (1/100000) 10 2 2 3 1)[1]?).map
        GroupCall.source_stock_conc ≠ some (1/10^7) := by
  refine ⟨?_, ?_, ?_⟩ <;>
    norm_num [tabs04_group_calls, decaySeries]

end LabToolkit
